import Mathlib

/-!
Verification of the vmemprof micro-benchmark collection.

Each benchmark variant of the repository allocates a 17234-byte source
buffer, duplicates it into a set of replicas, and in the measured loop
performs a handful of small fixed-offset copies from a rotating replica
into a 3 KiB output buffer, periodically evicting the CPU cache or TLB.
The definitions below are a shallow embedding of the sizing arithmetic,
the measured-copy layout, the rotation/eviction control flow and the
reported counters of every variant, translated from the C++ sources.
Machine integers (size_t, uint8_t) are modelled as Nat with explicit
mod-2^w arithmetic where the source relies on wrap-around.
-/

namespace Vmemprof

/-- Bitwise complement of a value as a 64-bit size_t: `~x` in the C sources
(all masks in the sources are applied to 64-bit values). -/
def not64 (x : Nat) : Nat := (2 ^ 64 - 1) - x % 2 ^ 64

/-- Model of the benchmark library's Counter flags used by the sources:
`benchmark::Counter::kDefaults` and `benchmark::Counter::kIsIterationInvariantRate`. -/
inductive CounterFlags
  | kDefaults
  | kIsIterationInvariantRate
deriving DecidableEq

/-- Model of the benchmark library's unit scale: `benchmark::Counter::kIs1000`
(decimal) and `benchmark::Counter::OneK::kIs1024` (binary). -/
inductive OneK
  | kIs1000
  | kIs1024
deriving DecidableEq

/-- Model of `benchmark::Counter(value, flags, oneK)`: every counter the
sources report is built from a Nat-valued expression cast to double. -/
structure Counter where
  value : Nat
  flags : CounterFlags
  oneK : OneK
deriving DecidableEq

/-- The three counters every variant assigns into `state.counters` at the end
of its run: `state.counters["Speed"]`, `state.counters["NumCopies"]` and
`state.counters["Allocated"]`. -/
structure Counters where
  Speed : Counter
  NumCopies : Counter
  Allocated : Counter
deriving DecidableEq

/-- Measured copies of the three-copy variants, in execution order, as
(destination offset into output_buffer, source offset into the replica, size):
`memcpy(output_buffer + 0, buffer + 102, 401)`,
`memcpy(output_buffer + 401, buffer + 6402, 801)`,
`memcpy(output_buffer + 401 + 801, buffer + 16586, 301)`.
This exact copy block appears in memcpy_baseline_inline, memcpy_32mb_l3,
memcpy_tlb.cpp, memcpy_clflush.cpp, memcpy_cpu_flush.cpp (both functions of
that file) and memcpy_wip_flush. -/
def measuredCopies3 : List (Nat × Nat × Nat) :=
  [(0, 102, 401), (401, 6402, 801), (401 + 801, 16586, 301)]

/-- Measured copy of the single-copy variants cache_flushing_clflush and
cache_flushing_flush_std_memset: `memcpy(output_buffer + 0, buffer + 102, 401)`. -/
def measuredCopies1 : List (Nat × Nat × Nat) :=
  [(0, 102, 401)]

/-- Reads-in-bounds check of a copy list against a per-replica size: every
copy's source offset plus its size stays within the replica. -/
def readsInBounds (copies : List (Nat × Nat × Nat)) (replicaSize : Nat) : Bool :=
  copies.all fun c => c.2.1 + c.2.2 ≤ replicaSize

/-- Running-sum destination layout: each copy's destination offset equals the
sum of the sizes of the copies preceding it in the list, starting from acc. -/
def checkRunningSum (acc : Nat) : List (Nat × Nat × Nat) → Bool
  | [] => true
  | c :: rest => (c.1 == acc) && checkRunningSum (acc + c.2.2) rest

/-- Highest output-buffer byte past the last destination region: the total
footprint of the copies in the output buffer. -/
def footprint (copies : List (Nat × Nat × Nat)) : Nat :=
  copies.foldl (fun acc c => max acc (c.1 + c.2.2)) 0

/-- Pairwise disjointness of the destination regions [dst, dst + size) of a
copy list. -/
def destDisjoint : List (Nat × Nat × Nat) → Bool
  | [] => true
  | c :: rest =>
    (rest.all fun d => c.1 + c.2.2 ≤ d.1 || d.1 + d.2.2 ≤ c.1) && destDisjoint rest

/-- Every output-buffer byte below `total` is written by some copy of the
list: the destination regions leave no gap in [0, total). -/
def destCovers (copies : List (Nat × Nat × Nat)) (total : Nat) : Bool :=
  (List.range total).all fun i => copies.any fun c => c.1 ≤ i && i < c.1 + c.2.2

end Vmemprof

namespace Vmemprof.memcpy_baseline_inline

/-- Constants of memcpy_baseline_inline (part_000): a single 17234-byte input
buffer, no replicas, no eviction. -/
def SOURCE_SIZE : Nat := 17234

/-- Counters reported by memcpy_baseline_inline. -/
def counters : Counters :=
  { Speed := ⟨1503, .kIsIterationInvariantRate, .kIs1024⟩,
    NumCopies := ⟨1, .kDefaults, .kIs1000⟩,
    Allocated := ⟨SOURCE_SIZE, .kDefaults, .kIs1024⟩ }

end Vmemprof.memcpy_baseline_inline

namespace Vmemprof.memcpy_32mb_l3

/-- Constants of memcpy_32mb_l3.cpp; `m` is the swept argument (assumed cache
size in MiB, Arg(33)/Arg(43)/Arg(53)). -/
def L3_SIZE (m : Nat) : Nat := m * 1024 * 1024

def SOURCE_SIZE : Nat := 17234

def TOTAL_COPY_SIZE : Nat := 401 + 801 + 301

/-- `NUM_COPIES = L3_SIZE / TOTAL_COPY_SIZE` as written at line 38 of
memcpy_32mb_l3.cpp (the divisor is the 1503-byte total copy size, not the
17234-byte source size). -/
def NUM_COPIES (m : Nat) : Nat := L3_SIZE m / TOTAL_COPY_SIZE

def INPUT_BUFFER_SIZE (m : Nat) : Nat := SOURCE_SIZE * NUM_COPIES m

/-- Swept arguments declared in `BENCHMARK(memcpy_32mb_l3)->Arg(33)->Arg(43)->Arg(53)`. -/
def args : List Nat := [33, 43, 53]

/-- Counters reported by memcpy_32mb_l3. -/
def counters (m : Nat) : Counters :=
  { Speed := ⟨1503, .kIsIterationInvariantRate, .kIs1024⟩,
    NumCopies := ⟨NUM_COPIES m, .kDefaults, .kIs1000⟩,
    Allocated := ⟨INPUT_BUFFER_SIZE m, .kDefaults, .kIs1024⟩ }

end Vmemprof.memcpy_32mb_l3

namespace Vmemprof.memcpy_tlb

/-- Constants of memcpy_tlb.cpp; the replica size is 17234 rounded up to a
page multiple with the mask idiom `(17234 + PAGE_SIZE - 1) & ~(PAGE_SIZE - 1)`. -/
def PAGE_SIZE : Nat := 4 * 1024

def SOURCE_SIZE : Nat := (17234 + PAGE_SIZE - 1) &&& not64 (PAGE_SIZE - 1)

def INPUT_BUFFER_SIZE (numCopies : Nat) : Nat := SOURCE_SIZE * numCopies + PAGE_SIZE

/-- Swept arguments declared in
`BENCHMARK(memcpy_tlb)->Arg(850)->Arg(1500)->Arg(2500)->Arg(3500)`. -/
def args : List Nat := [850, 1500, 2500, 3500]

/-- Counters reported by memcpy_tlb; the argument is NUM_COPIES. -/
def counters (numCopies : Nat) : Counters :=
  { Speed := ⟨1503, .kIsIterationInvariantRate, .kIs1024⟩,
    NumCopies := ⟨numCopies, .kDefaults, .kIs1000⟩,
    Allocated := ⟨INPUT_BUFFER_SIZE numCopies, .kDefaults, .kIs1024⟩ }

end Vmemprof.memcpy_tlb

namespace Vmemprof.memcpy_clflush

/-- Constants of memcpy_clflush.cpp: a single 17234-byte input buffer flushed
line by line after every iteration. -/
def SOURCE_SIZE : Nat := 17234

def CACHE_LINE_SIZE : Nat := 64

/-- Counters reported by memcpy_clflush. -/
def counters : Counters :=
  { Speed := ⟨1503, .kIsIterationInvariantRate, .kIs1024⟩,
    NumCopies := ⟨1, .kDefaults, .kIs1000⟩,
    Allocated := ⟨SOURCE_SIZE, .kDefaults, .kIs1024⟩ }

end Vmemprof.memcpy_clflush

namespace Vmemprof.cache_flushing_clflush

/-- Constants of cache_flushing/clflush.cpp: one 17234-byte buffer, one
401-byte measured copy, line-by-line flush after every iteration. -/
def BUFFER_SIZE : Nat := 17234

def CACHE_LINE_SIZE : Nat := 64

/-- Counters reported by cache_flushing_clflush. -/
def counters : Counters :=
  { Speed := ⟨1503, .kIsIterationInvariantRate, .kIs1024⟩,
    NumCopies := ⟨1, .kDefaults, .kIs1000⟩,
    Allocated := ⟨BUFFER_SIZE, .kDefaults, .kIs1024⟩ }

end Vmemprof.cache_flushing_clflush

namespace Vmemprof.memcpy_cpu_flush

/-- Constants of memcpy_cpu_flush (memcpy_cpu_flush.cpp, first function);
`m` is the swept argument (assumed cache size in MiB, Arg(8)/Arg(16)/Arg(32)). -/
def SOURCE_SIZE : Nat := 17234

def FLUSH_BUFFER_SIZE (m : Nat) : Nat := m * 1024 * 1024 * 4

def PAGE_SIZE : Nat := 4 * 1024

def NUM_COPIES : Nat := 1000

def INPUT_BUFFER_SIZE : Nat := SOURCE_SIZE * NUM_COPIES + PAGE_SIZE

def args : List Nat := [8, 16, 32]

/-- Counters reported by memcpy_cpu_flush. -/
def counters (m : Nat) : Counters :=
  { Speed := ⟨1503, .kIsIterationInvariantRate, .kIs1024⟩,
    NumCopies := ⟨NUM_COPIES, .kDefaults, .kIs1000⟩,
    Allocated := ⟨FLUSH_BUFFER_SIZE m + INPUT_BUFFER_SIZE, .kDefaults, .kIs1024⟩ }

end Vmemprof.memcpy_cpu_flush

namespace Vmemprof.memcpy_vmem_tlb_flush

/-- PADDING_SIZE of memcpy_vmem_tlb_flush (memcpy_cpu_flush.cpp, second
function): the swept argument `p` (Arg(40)/Arg(68)) converted to bytes. -/
def PADDING_SIZE (p : Nat) : Nat := p * 1024

/-- Per-replica size exactly as line 174 of memcpy_cpu_flush.cpp computes it:
`SOURCE_SIZE = (17234 + PADDING_SIZE - 1) / PADDING_SIZE` (the adjacent
comment says "Round to multiple of PAGE_SIZE", but the expression is a plain
ceiling division with no `* PADDING_SIZE` factor). -/
def SOURCE_SIZE (p : Nat) : Nat := (17234 + PADDING_SIZE p - 1) / PADDING_SIZE p

def NUM_COPIES : Nat := 32

def INPUT_BUFFER_SIZE (p : Nat) : Nat := SOURCE_SIZE p * NUM_COPIES + PADDING_SIZE p

/-- Swept arguments declared in `BENCHMARK(memcpy_vmem_tlb_flush)->Arg(40)->Arg(68)`. -/
def args : List Nat := [40, 68]

/-- Counters reported by memcpy_vmem_tlb_flush. -/
def counters (p : Nat) : Counters :=
  { Speed := ⟨1503, .kIsIterationInvariantRate, .kIs1024⟩,
    NumCopies := ⟨NUM_COPIES, .kDefaults, .kIs1000⟩,
    Allocated := ⟨INPUT_BUFFER_SIZE p, .kDefaults, .kIs1024⟩ }

end Vmemprof.memcpy_vmem_tlb_flush

namespace Vmemprof.cache_flushing_flush_std_memset

/-- Constants of cache_flushing_flush_std_memset (part_001); `m` is the swept
argument (cache size in MB, Arg(8)/Arg(16)/Arg(32)). -/
def SOURCE_SIZE : Nat := 17234

def PAGE_SIZE : Nat := 4 * 1024

def NUM_COPIES : Nat := 1000

def INPUT_BUFFER_SIZE : Nat := SOURCE_SIZE * NUM_COPIES + PAGE_SIZE

def cache_size (m : Nat) : Nat := m * 1024 * 1024

def flush_buffer_size (m : Nat) : Nat := cache_size m * 4

def args : List Nat := [8, 16, 32]

/-- Counters reported by cache_flushing_flush_std_memset. -/
def counters (m : Nat) : Counters :=
  { Speed := ⟨1503, .kIsIterationInvariantRate, .kIs1024⟩,
    NumCopies := ⟨NUM_COPIES, .kDefaults, .kIs1000⟩,
    Allocated := ⟨flush_buffer_size m + INPUT_BUFFER_SIZE, .kDefaults, .kIs1024⟩ }

end Vmemprof.cache_flushing_flush_std_memset

namespace Vmemprof.memcpy_cpu_flush_padded

/-- Constants of memcpy_cpu_flush_padded (part_002); `p` is the swept argument
(VMEM padding in MiB, Arg(0)/Arg(4)/Arg(16)/Arg(32)/Arg(64)/Arg(96)). -/
def SOURCE_SIZE : Nat := 17234

def CPU_CACHE_SIZE : Nat := 8 * 1024 * 1024

def FLUSH_BUFFER_SIZE : Nat := CPU_CACHE_SIZE * 4

def PAGE_SIZE : Nat := 4 * 1024

def NUM_COPIES : Nat := 1000

def INPUT_BUFFER_SIZE : Nat := SOURCE_SIZE * NUM_COPIES + PAGE_SIZE

def VMEM_PADDING (p : Nat) : Nat := p * 1024 * 1024

def PADDED_FLUSH_BUFFER_SIZE (p : Nat) : Nat := FLUSH_BUFFER_SIZE + VMEM_PADDING p * 2

def args : List Nat := [0, 4, 16, 32, 64, 96]

/-- Counters reported by memcpy_cpu_flush_padded. -/
def counters (p : Nat) : Counters :=
  { Speed := ⟨1503, .kIsIterationInvariantRate, .kIs1024⟩,
    NumCopies := ⟨NUM_COPIES, .kDefaults, .kIs1000⟩,
    Allocated := ⟨PADDED_FLUSH_BUFFER_SIZE p + INPUT_BUFFER_SIZE, .kDefaults, .kIs1024⟩ }

end Vmemprof.memcpy_cpu_flush_padded

namespace Vmemprof.memcpy_copies_padded

/-- Constants of memcpy_copies_padded (part_003); `p` is the swept argument
SOURCE_PADDING_SIZE in bytes (Arg(0)/Arg(4096)/Arg(16777216)). -/
def SOURCE_SIZE : Nat := 17234

def CPU_CACHE_SIZE : Nat := 8 * 1024 * 1024

def FLUSH_BUFFER_SIZE : Nat := CPU_CACHE_SIZE * 4

/-- PADDED_SOURCE_SIZE as the source computes it: when the padding is nonzero,
`(SOURCE_SIZE + SOURCE_PADDING_SIZE - 1) & ~(SOURCE_PADDING_SIZE - 1)`
(round to a multiple of the padding), otherwise SOURCE_SIZE unchanged. -/
def PADDED_SOURCE_SIZE (p : Nat) : Nat :=
  if p ≠ 0 then (SOURCE_SIZE + p - 1) &&& not64 (p - 1) else SOURCE_SIZE

def NUM_COPIES : Nat := 1000

def INPUT_BUFFER_ALIGNMENT : Nat := 2 * 1024 * 1024

def INPUT_BUFFER_SIZE (p : Nat) : Nat :=
  PADDED_SOURCE_SIZE p * NUM_COPIES + INPUT_BUFFER_ALIGNMENT

def VMEM_PADDING : Nat := 16 * 1024 * 1024

def PADDED_FLUSH_BUFFER_SIZE : Nat := FLUSH_BUFFER_SIZE + VMEM_PADDING * 2

/-- Swept arguments declared in
`BENCHMARK(memcpy_copies_padded)->Arg(0)->Arg(4 * 1024)->Arg(16 * 1024 * 1024)`. -/
def args : List Nat := [0, 4 * 1024, 16 * 1024 * 1024]

/-- Measured copies of memcpy_copies_padded in execution order, as
(destination offset, source offset, size): the third executed copy writes at
`memcpy_size0 + memcpy_size1 + memcpy_size2` from source offset 12308 with
size 501, and the fourth writes at `memcpy_size0 + memcpy_size1` from 16586. -/
def measuredCopies : List (Nat × Nat × Nat) :=
  [(0, 102, 401),
   (401, 6402, 801),
   (401 + 801 + 301, 12308, 501),
   (401 + 801, 16586, 301)]

/-- Counters reported by memcpy_copies_padded. -/
def counters (p : Nat) : Counters :=
  { Speed := ⟨1503, .kIsIterationInvariantRate, .kIs1024⟩,
    NumCopies := ⟨NUM_COPIES, .kDefaults, .kIs1000⟩,
    Allocated := ⟨PADDED_FLUSH_BUFFER_SIZE + INPUT_BUFFER_SIZE p, .kDefaults, .kIs1024⟩ }

end Vmemprof.memcpy_copies_padded

namespace Vmemprof.memcpy_wip_flush

/-- Constants of memcpy_wip_flush (part_004); `m` is the first argument
(cache size in MiB) and `v` the second (VMEM padding in MiB). Its BENCHMARK
registrations are commented out, so this variant is not declared. -/
def SOURCE_SIZE : Nat := 17234

def FLUSH_BUFFER_SIZE (m : Nat) : Nat := m * 1024 * 1024 * 4

def PAGE_SIZE : Nat := 4 * 1024

def NUM_COPIES : Nat := 1000

def INPUT_BUFFER_SIZE : Nat := SOURCE_SIZE * NUM_COPIES + PAGE_SIZE

def VMEM_PADDING (v : Nat) : Nat := v * 1024 * 1024

def PADDED_FLUSH_BUFFER_SIZE (m v : Nat) : Nat := FLUSH_BUFFER_SIZE m + VMEM_PADDING v * 2

/-- Counters reported by memcpy_wip_flush. -/
def counters (m v : Nat) : Counters :=
  { Speed := ⟨1503, .kIsIterationInvariantRate, .kIs1024⟩,
    NumCopies := ⟨NUM_COPIES, .kDefaults, .kIs1000⟩,
    Allocated := ⟨PADDED_FLUSH_BUFFER_SIZE m v + INPUT_BUFFER_SIZE, .kDefaults, .kIs1024⟩ }

end Vmemprof.memcpy_wip_flush

namespace Vmemprof

/-- One iteration of the rotation/eviction control flow shared by every
rotating variant: `copies[copy_index++]` followed by
`if (copy_index >= NUM_COPIES) { <evict>; copy_index = 0; }`. Given the
cursor at the start of the iteration, returns the cursor at the start of the
next iteration and whether the wrap branch (the branch holding the eviction
in evicting variants) ran. -/
def iterStep (NUM_COPIES copy_index : Nat) : Nat × Bool :=
  if NUM_COPIES ≤ copy_index + 1 then (0, true) else (copy_index + 1, false)

/-- Rotation cursor at the start of measured iteration n, starting from the
initialization `size_t copy_index = 0;` of every rotating variant. -/
def cursorAfter (NUM_COPIES : Nat) : Nat → Nat
  | 0 => 0
  | n + 1 => (iterStep NUM_COPIES (cursorAfter NUM_COPIES n)).1

/-- Whether the wrap/eviction branch runs during measured iteration n. -/
def evictsAt (NUM_COPIES n : Nat) : Bool :=
  (iterStep NUM_COPIES (cursorAfter NUM_COPIES n)).2

/-- Number of times the in-loop eviction branch ran during the first n
measured iterations. -/
def evictCount (NUM_COPIES : Nat) : Nat → Nat
  | 0 => 0
  | n + 1 => evictCount NUM_COPIES n + (if evictsAt NUM_COPIES n then 1 else 0)

/-- Observable events of a capacity-eviction variant's run: a flush-buffer
overwrite, or a measured iteration reading replica copy_index. -/
inductive Event
  | evict
  | iter (copy_index : Nat)
deriving DecidableEq

/-- Event trace of n measured-loop iterations starting at cursor copy_index:
each iteration reads replica copy_index, and when the incremented cursor
reaches NUM_COPIES the eviction runs and the cursor resets, exactly the loop
body shared by the capacity-eviction variants (part_001 lines 107-122,
memcpy_cpu_flush.cpp lines 77-99, part_002 lines 97-117, part_003 lines
117-144, part_004 lines 139-168). -/
def loopEvents (NUM_COPIES : Nat) : Nat → Nat → List Event
  | _, 0 => []
  | copy_index, n + 1 =>
    Event.iter copy_index ::
      (if (iterStep NUM_COPIES copy_index).2 then [Event.evict] else []) ++
        loopEvents NUM_COPIES (iterStep NUM_COPIES copy_index).1 n

/-- Full event trace of a capacity-eviction variant's run of n measured
iterations: each of those variants performs one flush-buffer overwrite before
the measured loop (part_001 lines 103-104, memcpy_cpu_flush.cpp lines 74-75,
part_002 lines 93-94, part_003 lines 113-114, part_004 lines 135-137), then
enters the loop with copy_index = 0. -/
def runEvents (NUM_COPIES n : Nat) : List Event :=
  Event.evict :: loopEvents NUM_COPIES 0 n

/-- The hand-written overwrite loop `memset_impl` shared by
memcpy_cpu_flush.cpp, part_002, part_003 and part_004: writes `value` into
every byte of the buffer. Buffers are byte lists; bytes are Nats below 256. -/
def memset_impl (buffer : List Nat) (value : Nat) : List Nat :=
  buffer.map fun _ => value

/-- One flush-buffer overwrite, `memset_impl(flush_buffer, SIZE, flush_value++)`:
the buffer is filled with the current flush_value and the 8-bit flush_value is
incremented (uint8_t arithmetic, mod 256). State is (buffer contents, flush_value). -/
def evictOnce (st : List Nat × Nat) : List Nat × Nat :=
  (memset_impl st.1 st.2, (st.2 + 1) % 256)

/-- Flush-buffer contents and flush_value after k overwrites, starting from
the initial (indeterminate) contents b and `uint8_t flush_value = 0;`. -/
def evictIter (b : List Nat) : Nat → List Nat × Nat
  | 0 => (b, 0)
  | k + 1 => evictOnce (evictIter b k)

/-- Cache-line flush loop of memcpy_clflush.cpp (lines 63-65) and
cache_flushing/clflush.cpp (lines 56-58): starting from the buffer base the
line at `ptr` is flushed and `ptr` advances by the 64-byte CACHE_LINE_SIZE
while it is still below the buffer end. Returns the flushed line offsets. -/
def flushLoop (bufferSize ptr : Nat) : List Nat :=
  if h : ptr < bufferSize then ptr :: flushLoop bufferSize (ptr + 64) else []
termination_by bufferSize - ptr
decreasing_by omega

/-- Offsets of the cache lines flushed over a whole buffer: the loop starts at
the input buffer's base address. -/
def flushOffsets (bufferSize : Nat) : List Nat := flushLoop bufferSize 0

end Vmemprof

namespace Vmemprof

lemma succ_mod_eq (n N : Nat) (h : 1 ≤ N) :
    (n + 1) % N = if n % N + 1 = N then 0 else n % N + 1 := by
  have h1 : (n + 1) % N = (n % N + 1 % N) % N := Nat.add_mod n 1 N
  rcases Nat.lt_or_ge 1 N with h2 | h2
  · have h3 : 1 % N = 1 := Nat.mod_eq_of_lt h2
    have h4 : n % N < N := Nat.mod_lt _ h
    by_cases h5 : n % N + 1 = N
    · simp [h5, h1, h3]
    · have h6 : n % N + 1 < N := by omega
      simp [h1, h3, h5, Nat.mod_eq_of_lt h6]
  · have h3 : N = 1 := by omega
    subst h3
    simp [Nat.mod_one]

lemma iterStep_evict_iff (N c : Nat) :
    (iterStep N c).2 = true ↔ (iterStep N c).1 = 0 := by
  unfold iterStep
  by_cases h : N ≤ c + 1 <;> simp [h]

lemma cursorAfter_eq_mod (N : Nat) (h : 1 ≤ N) (n : Nat) :
    cursorAfter N n = n % N := by
  induction n with
  | zero => simp [cursorAfter]
  | succ n ih =>
    have hlt : n % N < N := Nat.mod_lt _ h
    have hs := succ_mod_eq n N h
    unfold cursorAfter iterStep
    rw [ih]
    by_cases hc : N ≤ n % N + 1
    · have he : n % N + 1 = N := by omega
      simp [hc, hs, he]
    · have he : ¬(n % N + 1 = N) := by omega
      simp [hc, hs, he]

lemma evictsAt_iff (N : Nat) (h : 1 ≤ N) (n : Nat) :
    evictsAt N n = true ↔ (n + 1) % N = 0 := by
  have hlt : n % N < N := Nat.mod_lt _ h
  have hs := succ_mod_eq n N h
  unfold evictsAt iterStep
  rw [cursorAfter_eq_mod N h]
  by_cases hc : N ≤ n % N + 1
  · have he : n % N + 1 = N := by omega
    simp [hc, hs, he]
  · have he : ¬(n % N + 1 = N) := by omega
    simp [hc, hs, he]

lemma evictCount_eq_div (N : Nat) (h : 1 ≤ N) (n : Nat) :
    evictCount N n = n / N := by
  induction n with
  | zero => simp [evictCount]
  | succ n ih =>
    have hd := Nat.succ_div n N
    have hiff := evictsAt_iff N h n
    unfold evictCount
    rw [ih, hd]
    by_cases hc : (n + 1) % N = 0
    · have h1 : evictsAt N n = true := hiff.mpr hc
      have h2 : N ∣ (n + 1) := (Nat.dvd_iff_mod_eq_zero ..).mpr hc
      simp [h1, h2]
    · have h1 : ¬(evictsAt N n = true) := fun hx => hc (hiff.mp hx)
      have h2 : ¬ N ∣ (n + 1) := fun hx => hc ((Nat.dvd_iff_mod_eq_zero ..).mp hx)
      simp [h1, h2]

lemma countEvict_loopEvents (N : Nat) (h : 1 ≤ N) :
    ∀ n c, c < N → ((loopEvents N c n).countP (· == Event.evict)) = (c + n) / N := by
  intro n
  induction n with
  | zero =>
    intro c hc
    simp [loopEvents, Nat.div_eq_of_lt hc]
  | succ n ih =>
    intro c hc
    by_cases hw : N ≤ c + 1
    · have hc1 : c + 1 = N := by omega
      have hrec := ih 0 h
      have harith : (c + (n + 1)) / N = n / N + 1 := by
        rw [show c + (n + 1) = n + N by omega]
        exact Nat.add_div_right n h
      simp only [loopEvents, iterStep, if_pos hw, List.countP_cons, List.countP_append]
      simp [hrec, harith]
      omega
    · have hc1 : c + 1 < N := by omega
      have hrec := ih (c + 1) hc1
      have harith : (c + 1 + n) / N = (c + (n + 1)) / N := by
        congr 1
        omega
      simp only [loopEvents, iterStep, if_neg hw, List.countP_cons]
      simp [hrec, harith]

lemma head_runEvents (N n : Nat) : (runEvents N n).head? = some Event.evict := rfl

lemma countEvict_runEvents (N : Nat) (h : 1 ≤ N) (n : Nat) :
    ((runEvents N n).countP (· == Event.evict)) = n / N + 1 := by
  simp [runEvents, List.countP_cons, countEvict_loopEvents N h n 0 h]

lemma memset_impl_eq (l : List Nat) (v : Nat) :
    memset_impl l v = List.replicate l.length v := by
  induction l with
  | nil => rfl
  | cons a l ih => simp [memset_impl, List.replicate] at ih ⊢

lemma evictIter_snd (b : List Nat) (k : Nat) : (evictIter b k).2 = k % 256 := by
  induction k with
  | zero => rfl
  | succ k ih =>
    show ((evictIter b k).2 + 1) % 256 = (k + 1) % 256
    omega

lemma evictIter_fst_length (b : List Nat) (k : Nat) :
    (evictIter b k).1.length = b.length := by
  induction k with
  | zero => rfl
  | succ k ih =>
    show (memset_impl (evictIter b k).1 (evictIter b k).2).length = b.length
    simp [memset_impl, ih]

lemma evictIter_fst_succ (b : List Nat) (k : Nat) :
    (evictIter b (k + 1)).1 = List.replicate b.length (k % 256) := by
  show (memset_impl (evictIter b k).1 (evictIter b k).2) = _
  rw [memset_impl_eq, evictIter_fst_length, evictIter_snd]

lemma getD_replicate (n v : Nat) (h : 0 < n) :
    (List.replicate n v).getD 0 0 = v := by
  cases n with
  | zero => omega
  | succ n => rfl

lemma mem_flushLoop (B p x : Nat) :
    x ∈ flushLoop B p ↔ ∃ k, x = p + 64 * k ∧ x < B := by
  induction p using flushLoop.induct B with
  | case1 p h ih =>
    rw [flushLoop]
    simp only [dif_pos h, List.mem_cons, ih]
    constructor
    · rintro (rfl | ⟨k, rfl, hk⟩)
      · exact ⟨0, by omega, h⟩
      · exact ⟨k + 1, by omega, hk⟩
    · rintro ⟨k, rfl, hk⟩
      cases k with
      | zero => left; omega
      | succ k => right; exact ⟨k, by omega, hk⟩
  | case2 p h =>
    rw [flushLoop]
    simp only [dif_neg h, List.not_mem_nil, false_iff]
    rintro ⟨k, rfl, hk⟩
    omega

lemma length_flushLoop (B p : Nat) :
    (flushLoop B p).length = (B - p + 63) / 64 := by
  induction p using flushLoop.induct B with
  | case1 p h ih =>
    rw [flushLoop]
    simp only [dif_pos h, List.length_cons, ih]
    omega
  | case2 p h =>
    rw [flushLoop]
    simp only [dif_neg h, List.length_nil]
    omega

end Vmemprof

namespace Vmemprof

/-- C1: the claim says every declared variant's fixed source-read offsets plus
copy sizes fit in that variant's per-replica source size. The evaluation below
shows they do in nine of the ten declared variants, but in
memcpy_vmem_tlb_flush the per-replica SOURCE_SIZE evaluates to 1 for every
swept argument (the round-up at line 174 of memcpy_cpu_flush.cpp is a plain
ceiling division, its `* PADDING_SIZE` factor is missing), so already the
first copy (offset 102, size 401) reads far past the replica: the code
contradicts its own comment `Round to multiple of PAGE_SIZE`, a code bug. -/
theorem C1_source_reads_eval :
    readsInBounds measuredCopies3 memcpy_baseline_inline.SOURCE_SIZE = true ∧
    readsInBounds measuredCopies3 memcpy_32mb_l3.SOURCE_SIZE = true ∧
    readsInBounds measuredCopies3 memcpy_tlb.SOURCE_SIZE = true ∧
    readsInBounds measuredCopies3 memcpy_clflush.SOURCE_SIZE = true ∧
    readsInBounds measuredCopies1 cache_flushing_clflush.BUFFER_SIZE = true ∧
    readsInBounds measuredCopies1 cache_flushing_flush_std_memset.SOURCE_SIZE = true ∧
    readsInBounds measuredCopies3 memcpy_cpu_flush.SOURCE_SIZE = true ∧
    readsInBounds measuredCopies3 memcpy_cpu_flush_padded.SOURCE_SIZE = true ∧
    (∀ p ∈ memcpy_copies_padded.args,
      readsInBounds memcpy_copies_padded.measuredCopies
        (memcpy_copies_padded.PADDED_SOURCE_SIZE p) = true) ∧
    (∀ p ∈ memcpy_vmem_tlb_flush.args, memcpy_vmem_tlb_flush.SOURCE_SIZE p = 1) ∧
    readsInBounds measuredCopies3 (memcpy_vmem_tlb_flush.SOURCE_SIZE 40) = false := by
  decide

/-- C2 counterexample: the claim says each copy's destination offset equals
the running sum of the sizes of the copies preceding it, with total footprint
1503. In memcpy_copies_padded (the four-copy variant) the third executed copy
writes at offset 1503 while the sizes executed before it sum to 1202, so the
running-sum layout fails in execution order, and the footprint is 2004. -/
theorem C2_running_sum_counterexample :
    checkRunningSum 0 memcpy_copies_padded.measuredCopies = false ∧
    memcpy_copies_padded.measuredCopies.getD 2 (0, 0, 0) = (401 + 801 + 301, 12308, 501) ∧
    401 + 801 ≠ 401 + 801 + 301 ∧
    footprint memcpy_copies_padded.measuredCopies = 2004 ∧ 2004 ≠ 1503 := by
  decide

set_option maxRecDepth 40000 in
/-- C2 (amended): in every three-copy variant the copies write into disjoint
contiguous regions at offsets equal to the running sum of the preceding sizes
(0, 401, 1202; footprint 1503). In memcpy_copies_padded the four copies still
write pairwise-disjoint regions exactly covering [0, 2004) with no overlap and
no gap (footprint 2004, not 1503), but the running-sum layout holds only after
reordering by destination: the third executed copy (size 501) lands at 1503
and the fourth (size 301) at 1202. -/
theorem C2_disjoint_contiguous_amended :
    (checkRunningSum 0 measuredCopies3 = true ∧
     footprint measuredCopies3 = 1503 ∧
     destDisjoint measuredCopies3 = true ∧
     destCovers measuredCopies3 1503 = true) ∧
    (destDisjoint memcpy_copies_padded.measuredCopies = true ∧
     destCovers memcpy_copies_padded.measuredCopies 2004 = true ∧
     footprint memcpy_copies_padded.measuredCopies = 2004 ∧
     memcpy_copies_padded.measuredCopies.Perm
       [(0, 102, 401), (401, 6402, 801), (401 + 801, 16586, 301),
        (401 + 801 + 301, 12308, 501)] ∧
     checkRunningSum 0
       [(0, 102, 401), (401, 6402, 801), (401 + 801, 16586, 301),
        (401 + 801 + 301, 12308, 501)] = true) := by
  decide

/-- C3: in every rotating variant (all have NUM_COPIES ≥ 1) the rotation
cursor satisfies 0 ≤ copy_index < NUM_COPIES at the start of every measured
iteration, and whenever the post-copy increment triggers the wrap/eviction
branch, the cursor is reset to 0 within that same iteration. -/
theorem C3_rotation_cursor_invariant (N n : Nat) (h : 1 ≤ N) :
    cursorAfter N n < N ∧
    (evictsAt N n = true → cursorAfter N (n + 1) = 0) := by
  constructor
  · rw [cursorAfter_eq_mod N h]
    exact Nat.mod_lt _ h
  · intro he
    show (iterStep N (cursorAfter N n)).1 = 0
    exact (iterStep_evict_iff _ _).mp he

/-- C3 witness: the invariant instantiated at NUM_COPIES = 1000 (the replica
count of the capacity-eviction variants) and iteration 1999. -/
theorem C3_rotation_cursor_invariant_witness :
    cursorAfter 1000 1999 < 1000 ∧
    (evictsAt 1000 1999 = true → cursorAfter 1000 (1999 + 1) = 0) :=
  C3_rotation_cursor_invariant 1000 1999 (by decide)

/-- C4: in the measured loop of every capacity-eviction and page-protection
variant, the eviction branch runs in an iteration exactly when the rotation
cursor wraps to 0 in that iteration, which happens exactly when the iteration
index n satisfies (n + 1) % NUM_COPIES = 0; over the first n iterations the
eviction branch runs exactly n / NUM_COPIES times, once per NUM_COPIES
iterations and never on a non-wrap iteration. -/
theorem C4_evict_iff_wrap (N n : Nat) (h : 1 ≤ N) :
    (evictsAt N n = true ↔ cursorAfter N (n + 1) = 0) ∧
    (evictsAt N n = true ↔ (n + 1) % N = 0) ∧
    evictCount N n = n / N :=
  ⟨iterStep_evict_iff N (cursorAfter N n), evictsAt_iff N h n, evictCount_eq_div N h n⟩

/-- C4 witness: instantiated at NUM_COPIES = 1000 and iteration 999, the last
iteration of the first rotation round. -/
theorem C4_evict_iff_wrap_witness :
    (evictsAt 1000 999 = true ↔ cursorAfter 1000 (999 + 1) = 0) ∧
    (evictsAt 1000 999 = true ↔ (999 + 1) % 1000 = 0) ∧
    evictCount 1000 999 = 999 / 1000 :=
  C4_evict_iff_wrap 1000 999 (by decide)

/-- C5: the claim says memcpy_32mb_l3 holds as many 17234-byte duplicates as
fit in the assumed cache size, with the allocation not exceeding it. The code
instead divides the cache size by TOTAL_COPY_SIZE = 1503 (line 38 of
memcpy_32mb_l3.cpp): at Arg(33) it makes 23022 copies and allocates
396,761,148 bytes, more than eleven times the 33 MiB the comment above the
function says it allocates; the greatest count actually fitting is 2007.
The code contradicts its own comment, a code bug. -/
theorem C5_num_copies_eval :
    memcpy_32mb_l3.NUM_COPIES 33 = 23022 ∧
    memcpy_32mb_l3.INPUT_BUFFER_SIZE 33 = 396761148 ∧
    ¬ (memcpy_32mb_l3.INPUT_BUFFER_SIZE 33 ≤ memcpy_32mb_l3.L3_SIZE 33) ∧
    memcpy_32mb_l3.L3_SIZE 33 / memcpy_32mb_l3.SOURCE_SIZE = 2007 ∧
    2007 * memcpy_32mb_l3.SOURCE_SIZE ≤ memcpy_32mb_l3.L3_SIZE 33 ∧
    ¬ (memcpy_32mb_l3.NUM_COPIES 33 * memcpy_32mb_l3.SOURCE_SIZE ≤ memcpy_32mb_l3.L3_SIZE 33) := by
  decide

/-- C6: in every capacity-eviction variant the flush_value passed to the k-th
overwrite is the 8-bit counter k % 256, each overwrite fills the flush region
with a value exactly one greater mod 256 than the preceding overwrite's, and
after every rotation-wrap eviction (overwrite k + 1, the pre-loop overwrite
being overwrite 0) the region's marker byte differs from its value
immediately before that eviction call. -/
theorem C6_eviction_marker (b : List Nat) (k : Nat) (h : 0 < b.length) :
    (evictIter b (k + 2)).1 = memset_impl b ((evictIter b (k + 1)).2) ∧
    (evictIter b (k + 1)).2 = ((evictIter b k).2 + 1) % 256 ∧
    (evictIter b (k + 2)).1.getD 0 0 ≠ (evictIter b (k + 1)).1.getD 0 0 := by
  refine ⟨?_, ?_, ?_⟩
  · rw [evictIter_fst_succ, evictIter_snd, memset_impl_eq]
  · rw [evictIter_snd, evictIter_snd]
    omega
  · rw [evictIter_fst_succ, evictIter_fst_succ, getD_replicate _ _ h, getD_replicate _ _ h]
    omega

/-- C6 witness: a one-byte flush buffer initially holding 0xA6 = 166, across
the eviction at the end of the sixth rotation round. -/
theorem C6_eviction_marker_witness :
    (evictIter [166] (5 + 2)).1 = memset_impl [166] ((evictIter [166] (5 + 1)).2) ∧
    (evictIter [166] (5 + 1)).2 = ((evictIter [166] 5).2 + 1) % 256 ∧
    (evictIter [166] (5 + 2)).1.getD 0 0 ≠ (evictIter [166] (5 + 1)).1.getD 0 0 :=
  C6_eviction_marker [166] 5 (by decide)

/-- C7: for memcpy_copies_padded, the Allocated counter equals
PADDED_FLUSH_BUFFER_SIZE + PADDED_SOURCE_SIZE * 1000 + the 2 MiB alignment
slack for every swept padding argument, PADDED_SOURCE_SIZE is 17234 rounded
up to a multiple of the padding (17234 itself at padding 0), and sweeping the
padding across {0, 4096, 16 MiB} yields monotonically non-decreasing
Allocated values. -/
theorem C7_allocated_counter :
    (∀ p ∈ memcpy_copies_padded.args,
      (memcpy_copies_padded.counters p).Allocated =
        ⟨memcpy_copies_padded.PADDED_FLUSH_BUFFER_SIZE +
           (memcpy_copies_padded.PADDED_SOURCE_SIZE p * 1000 + 2 * 1024 * 1024),
         .kDefaults, .kIs1024⟩) ∧
    memcpy_copies_padded.PADDED_SOURCE_SIZE 0 = 17234 ∧
    (∀ p ∈ memcpy_copies_padded.args, p ≠ 0 →
      memcpy_copies_padded.PADDED_SOURCE_SIZE p = (17234 + p - 1) / p * p) ∧
    memcpy_copies_padded.args = [0, 4096, 16777216] ∧
    (memcpy_copies_padded.counters 0).Allocated.value ≤
      (memcpy_copies_padded.counters 4096).Allocated.value ∧
    (memcpy_copies_padded.counters 4096).Allocated.value ≤
      (memcpy_copies_padded.counters 16777216).Allocated.value := by
  decide

/-- C8: every variant reports a Speed counter with the fixed value 1503,
tagged kIsIterationInvariantRate with binary (1024) unit scale, independent
of every swept argument (the value is a literal constant in each source
file, never derived from measured time or bytes). -/
theorem C8_speed_counter :
    memcpy_baseline_inline.counters.Speed =
        ⟨1503, .kIsIterationInvariantRate, .kIs1024⟩ ∧
    memcpy_clflush.counters.Speed =
        ⟨1503, .kIsIterationInvariantRate, .kIs1024⟩ ∧
    cache_flushing_clflush.counters.Speed =
        ⟨1503, .kIsIterationInvariantRate, .kIs1024⟩ ∧
    (∀ m : Nat, (memcpy_32mb_l3.counters m).Speed =
        ⟨1503, .kIsIterationInvariantRate, .kIs1024⟩) ∧
    (∀ n : Nat, (memcpy_tlb.counters n).Speed =
        ⟨1503, .kIsIterationInvariantRate, .kIs1024⟩) ∧
    (∀ m : Nat, (memcpy_cpu_flush.counters m).Speed =
        ⟨1503, .kIsIterationInvariantRate, .kIs1024⟩) ∧
    (∀ p : Nat, (memcpy_vmem_tlb_flush.counters p).Speed =
        ⟨1503, .kIsIterationInvariantRate, .kIs1024⟩) ∧
    (∀ m : Nat, (cache_flushing_flush_std_memset.counters m).Speed =
        ⟨1503, .kIsIterationInvariantRate, .kIs1024⟩) ∧
    (∀ p : Nat, (memcpy_cpu_flush_padded.counters p).Speed =
        ⟨1503, .kIsIterationInvariantRate, .kIs1024⟩) ∧
    (∀ p : Nat, (memcpy_copies_padded.counters p).Speed =
        ⟨1503, .kIsIterationInvariantRate, .kIs1024⟩) ∧
    (∀ m v : Nat, (memcpy_wip_flush.counters m v).Speed =
        ⟨1503, .kIsIterationInvariantRate, .kIs1024⟩) :=
  ⟨rfl, rfl, rfl, fun _ => rfl, fun _ => rfl, fun _ => rfl, fun _ => rfl,
   fun _ => rfl, fun _ => rfl, fun _ => rfl, fun _ _ => rfl⟩

/-- C9: in the explicit cache-line-flush variants the flush loop starts at the
buffer base and advances by the 64-byte cache-line size until the pointer
passes the buffer end: it issues exactly 270 = ceil(17234 / 64) flushes, every
byte of the 17234-byte buffer lies within some flushed line, every flushed
line starts inside the buffer, and the final flushed line (offset 17216)
extends past the buffer end since 17234 is not a multiple of 64. -/
theorem C9_flush_tiling :
    (flushOffsets 17234).length = 270 ∧
    270 = (17234 + 64 - 1) / 64 ∧
    (∀ i, i < 17234 → ∃ off ∈ flushOffsets 17234, off ≤ i ∧ i < off + 64) ∧
    (∀ off ∈ flushOffsets 17234, off < 17234) ∧
    17216 ∈ flushOffsets 17234 ∧ 17234 < 17216 + 64 ∧ 17234 % 64 ≠ 0 := by
  refine ⟨?_, by norm_num, ?_, ?_, ?_, by norm_num, by norm_num⟩
  · rw [flushOffsets, length_flushLoop]
  · intro i hi
    refine ⟨64 * (i / 64), ?_, ?_, ?_⟩
    · rw [flushOffsets, mem_flushLoop]
      exact ⟨i / 64, by omega, by omega⟩
    · omega
    · omega
  · intro off hoff
    rw [flushOffsets, mem_flushLoop] at hoff
    obtain ⟨k, rfl, hk⟩ := hoff
    omega
  · rw [flushOffsets, mem_flushLoop]
    exact ⟨269, by norm_num, by norm_num⟩

/-- C10: every capacity-eviction variant runs the flush-buffer overwrite once
before the measured loop begins, so the run trace starts with an eviction
event preceding the first measured iteration, and a run of n measured
iterations performs n / NUM_COPIES + 1 evictions in total (the wrap
evictions plus the pre-loop one). -/
theorem C10_pre_loop_eviction (N n : Nat) (h : 1 ≤ N) :
    (runEvents N n).head? = some Event.evict ∧
    ((runEvents N n).countP (· == Event.evict)) = n / N + 1 :=
  ⟨head_runEvents N n, countEvict_runEvents N h n⟩

/-- C10 witness: instantiated at NUM_COPIES = 1000 and a run of 5 measured
iterations: the trace starts with the pre-loop eviction and holds exactly one
eviction. -/
theorem C10_pre_loop_eviction_witness :
    (runEvents 1000 5).head? = some Event.evict ∧
    ((runEvents 1000 5).countP (· == Event.evict)) = 5 / 1000 + 1 :=
  C10_pre_loop_eviction 1000 5 (by decide)

end Vmemprof
